import Mathlib

/-!
Shallow embedding of the stage-transition workflow engine of the
AI-Healthcare-Assistant repository (src/agents.py and src/groq_llm.py),
together with proofs about its routing, gating and response-cleaning logic.

Python dictionaries are embedded as ordered association lists
(`dset` replaces an existing key in place, appends a fresh one, exactly as
CPython preserves insertion order); Python truthiness of `dict.get` results
is `truthy`; Python strings are `String`/`List Char`; the external Groq
chat-completion endpoint is an abstract `Client` that either returns the raw
completion text or raises (models the `except` branch of
`GroqLLM._async_generate_response`).  Each stage processor additionally
reports how many generation calls it performed, so that "no text-generation
call is made" is expressible.
-/

namespace Workflow

/-- Values stored in the `patient_data` mapping: the workflow writes strings
(result texts, care level) and booleans (completion flags). -/
inductive Val where
  | str (s : String)
  | bool (b : Bool)
deriving DecidableEq, Repr

/-- `patient_data`: an insertion-ordered string-keyed mapping, as a Python dict. -/
abbrev PatientData := List (String × Val)

/-- `d.get(k)`: first value bound to `k`, `None` (`none`) when absent. -/
def dget : PatientData → String → Option Val
  | [], _ => none
  | (k', v) :: rest, k => if k' = k then some v else dget rest k

/-- `d[k] = v` (one key of `d.update({...})`): replace in place or append. -/
def dset : PatientData → String → Val → PatientData
  | [], k, v => [(k, v)]
  | (k', v') :: rest, k, v =>
      if k' = k then (k, v) :: rest else (k', v') :: dset rest k v

/-- Python truthiness of an optional stored value (`if not d.get(flag):`). -/
def truthy : Option Val → Bool
  | none => false
  | some (.str s) => !(s == "")
  | some (.bool b) => b

/-- The workflow state threaded through `route`/`transition`:
`{'patient_data': ..., 'stage': ...}`. -/
structure WState where
  patient_data : PatientData
  stage : String
deriving DecidableEq, Repr

/-- The external chat-completion endpoint: prompt and optional system prompt
to either the raw completion text (`.ok`) or an exception message
(`.error`), the two outcomes of the `try` block in
`GroqLLM._async_generate_response`. -/
abbrev Client := String → Option String → Except String String

/-! ### Response cleaning (`GroqLLM._clean_response`) -/

/-- `pat` is a prefix of `l` (Python `str.startswith` on char lists). -/
def isPre : List Char → List Char → Bool
  | [], _ => true
  | _ :: _, [] => false
  | a :: as, b :: bs => a = b && isPre as bs

/-- Python `hay.find(pat)`: index of the first occurrence, `none` when
absent (the source only calls it after an `in` test). -/
def findSub : List Char → List Char → Option Nat
  | [], pat => if isPre pat [] then some 0 else none
  | c :: t, pat =>
      if isPre pat (c :: t) then some 0 else (findSub t pat).map (· + 1)

/-- Python `pat in hay`. -/
def hasSub (hay pat : List Char) : Bool := (findSub hay pat).isSome

/-- The opening reasoning-trace tag `"<think>"`. -/
def oTag : List Char := "<think>".data

/-- The closing reasoning-trace tag `"</think>"`. -/
def cTag : List Char := "</think>".data

/-- First phase of `_clean_response`: if both tags occur, cut from the first
`"<think>"` to the end of the first `"</think>"`
(`content[:start_idx] + content[end_idx:]`). -/
def removeThink (content : List Char) : List Char :=
  match findSub content oTag, findSub content cTag with
  | some s, some e => content.take s ++ content.drop (e + cTag.length)
  | _, _ => content

/-- Python `content.split('\n')`. -/
def splitLines : List Char → List (List Char)
  | [] => [[]]
  | c :: rest =>
      match splitLines rest with
      | [] => [[c]]
      | l :: ls => if c = '\n' then [] :: l :: ls else (c :: l) :: ls

/-- Python `'\n'.join(lines)`. -/
def joinLines : List (List Char) → List Char
  | [] => []
  | [l] => l
  | l :: ls => l ++ '\n' :: joinLines ls

/-- The characters Python `str.strip()` removes. -/
def isPySpace (c : Char) : Bool :=
  c = ' ' || c = '\t' || c = '\n' || c = '\r' || c = '\x0b' || c = '\x0c'

/-- Python `s.strip()`. -/
def pyStrip (l : List Char) : List Char :=
  ((l.dropWhile isPySpace).reverse.dropWhile isPySpace).reverse

/-- The `for line in lines` loop of `_clean_response` with its
`json_started` flag: drops any trailing JSON metadata block. -/
def removeMeta : Bool → List (List Char) → List (List Char)
  | _, [] => []
  | js, line :: rest =>
    let st := pyStrip line
    if isPre "\x7b\"".data st || isPre "\"model\"".data st ||
        isPre "\"elapsed_time\"".data st then
      removeMeta true rest
    else if js && (st = "\x7d".data || st = "\x7d,".data) then
      removeMeta false rest
    else if js then
      removeMeta js rest
    else
      line :: removeMeta js rest

/-- Second phase of `_clean_response`: split into lines, drop the JSON
metadata block, rejoin, strip. -/
def stripMeta (l : List Char) : List Char :=
  pyStrip (joinLines (removeMeta false (splitLines l)))

/-- `GroqLLM._clean_response`. -/
def cleanResponse (content : String) : String :=
  ⟨stripMeta (removeThink content.data)⟩

/-- `GroqLLM.generate_response` / `_async_generate_response`: on success the
cleaned completion text; on any exception `e` the string `"Error: " + str(e)`
(the `except` branch returns, it does not re-raise). -/
def generateResponse (client : Client) (prompt : String)
    (systemPrompt : Option String) : String :=
  match client prompt systemPrompt with
  | .ok content => cleanResponse content
  | .error e => "Error: " ++ e

/-! ### Prompt construction (string building only; the client is abstract) -/

/-- `json.dumps` of a stored value (simplified rendering: no escape
sequences, which no theorem depends on). -/
def dumpVal : Val → String
  | .str s => "\"" ++ s ++ "\""
  | .bool b => if b then "true" else "false"

/-- The key/value lines of `json.dumps(patient_data, indent=2)`. -/
def dumpEntries : PatientData → String
  | [] => ""
  | [(k, v)] => "  \"" ++ k ++ "\": " ++ dumpVal v
  | (k, v) :: rest => "  \"" ++ k ++ "\": " ++ dumpVal v ++ ",\n" ++ dumpEntries rest

/-- `json.dumps(patient_data, indent=2)`. -/
def dumps (d : PatientData) : String := "\x7b\n" ++ dumpEntries d ++ "\n\x7d"

/-- System prompt of the intake coordinator. -/
def intakeSystemPrompt : String :=
  "You are a medical intake coordinator with expertise in initial patient risk assessment.\n" ++
  "Provide a clear, structured assessment focusing ONLY on:\n" ++
  "1. Initial risk level (Low/Medium/High)\n" ++
  "2. Immediate concerns identified\n" ++
  "3. Recommended next steps\n" ++
  "4. Additional information needed\n\n" ++
  "Use bullet points and clear formatting. Do not include any 'thinking' process or metadata.\n"

/-- User prompt of the intake coordinator (the f-string embedding
`json.dumps(patient_data, indent=2)`). -/
def intakePrompt (pd : PatientData) : String :=
  "\nPatient Information:\n" ++ dumps pd ++
  "\n\nPlease provide your assessment in this EXACT format:\n\n" ++
  "## Initial Risk Assessment\n\n**Risk Level:** [Low/Medium/High]\n\n" ++
  "**Immediate Concerns:**\n* [List concerns with bullet points]\n\n" ++
  "**Recommended Next Steps:**\n* [List steps with bullet points]\n\n" ++
  "**Additional Information Needed:**\n* [List needed information with bullet points]\n"

/-- System prompt of the clinical assessment specialist. -/
def assessmentSystemPrompt : String :=
  "You are a clinical assessment specialist.\n" ++
  "Provide a structured assessment following the format below EXACTLY.\n" ++
  "Use clear headers, numbered points, and bullet lists as specified.\n" ++
  "Do NOT include any metadata, thinking process, or tags in your response.\n"

/-- User prompt of the clinical assessment specialist. -/
def assessmentPrompt (pd : PatientData) : String :=
  "\nReview this patient's information and provide a detailed clinical assessment:\n\n" ++
  "Patient Information:\n" ++ dumps pd ++
  "\n\nFormat your response EXACTLY as follows:\n\n# Clinical Assessment\n\n" ++
  "## 1. Detailed Symptom Analysis:\n\n* [Symptom 1 with details]\n* [Symptom 2 with details]\n* [Additional symptoms as needed]\n\n" ++
  "## 2. Risk Level Determination: [Low/Medium/High] Risk\n\n* [Risk factor 1]\n* [Risk factor 2]\n* [Additional risk factors as needed]\n\n" ++
  "## 3. Recommended Additional Screenings or Tests:\n\n1. [Test 1]\n2. [Test 2]\n3. [Additional tests as needed]\n\n" ++
  "## 4. Potential Diagnoses to Consider:\n\n1. [Diagnosis 1]\n2. [Diagnosis 2]\n3. [Additional diagnoses as needed]\n\n" ++
  "## 5. Areas Requiring Immediate Medical Attention:\n\n* [Area 1]\n* [Area 2]\n* [Additional areas as needed]\n"

/-- System prompt of the care planning specialist. -/
def careSystemPrompt : String :=
  "You are a care planning specialist.\n" ++
  "Provide detailed treatment recommendations following the format below EXACTLY.\n" ++
  "Use clear headers, numbered points, and bullet lists as specified.\n" ++
  "Do NOT include any metadata, thinking process, or tags in your response.\n"

/-- User prompt of the care planning specialist. -/
def carePrompt (pd : PatientData) : String :=
  "\nBased on the patient's information and assessments, provide comprehensive treatment recommendations:\n\n" ++
  "Patient Information and Assessments:\n" ++ dumps pd ++
  "\n\nFormat your response EXACTLY as follows:\n\n# Treatment Recommendations\n\n" ++
  "## 1. Detailed Treatment Plan:\n\n* [Treatment component 1]\n* [Treatment component 2]\n* [Additional components as needed]\n\n" ++
  "## 2. Care Level Determination:\n\n* [Routine/Urgent/Emergency]: [Brief justification]\n\n" ++
  "## 3. Medication Recommendations:\n\n* [Medication 1 with dosage if applicable]\n* [Medication 2 with dosage if applicable]\n* [Additional medications as needed]\n\n" ++
  "## 4. Lifestyle Modifications Needed:\n\n* [Modification 1]\n* [Modification 2]\n* [Additional modifications as needed]\n\n" ++
  "## 5. Follow-up Schedule:\n\n* [Timeframe and type of follow-up]\n\n" ++
  "## 6. Compliance Requirements:\n\n* [Requirement 1]\n* [Requirement 2]\n* [Additional requirements as needed]\n\n" ++
  "## 7. Warning Signs to Watch For:\n\n* [Warning sign 1]\n* [Warning sign 2]\n* [Additional warning signs as needed]\n"

/-! ### Stage processors (`agents.py`) -/

/-- Python `content.lower()` (ASCII case folding suffices for the keywords). -/
def lowerStr (s : String) : String := ⟨s.data.map Char.toLower⟩

/-- The care-level keyword scan inside `care_planner`: default `"Routine"`,
`"Emergency"` if `"emergency" in content.lower()`, else `"Urgent"` if
`"urgent" in content.lower()`. -/
def careLevelOf (content : String) : String :=
  if hasSub (lowerStr content).data "emergency".data then "Emergency"
  else if hasSub (lowerStr content).data "urgent".data then "Urgent"
  else "Routine"

/-- `intake_coordinator`: when `intake_complete` is not truthy, call the
generation client and write `risk_assessment` and `intake_complete`
(in that `update` order); always reset `stage` to `"intake"`.  The
`isinstance(response, dict)` branch is dead code (`generate_response`
always returns a string) and is embedded as the `else` branch taken.
The `Nat` component counts generation calls made by this invocation. -/
def intakeCoordinator (client : Client) (s : WState) : WState × Nat :=
  let pd := s.patient_data
  if truthy (dget pd "intake_complete") then
    ({ patient_data := pd, stage := "intake" }, 0)
  else
    let response := generateResponse client (intakePrompt pd) (some intakeSystemPrompt)
    let pd' := dset (dset pd "risk_assessment" (.str response)) "intake_complete" (.bool true)
    ({ patient_data := pd', stage := "intake" }, 1)

/-- `clinical_assessment`: analogous, guarded by `assessment_complete`,
writing `clinical_assessment` then `assessment_complete`. -/
def clinicalAssessment (client : Client) (s : WState) : WState × Nat :=
  let pd := s.patient_data
  if truthy (dget pd "assessment_complete") then
    ({ patient_data := pd, stage := "assessment" }, 0)
  else
    let response := generateResponse client (assessmentPrompt pd) (some assessmentSystemPrompt)
    let pd' := dset (dset pd "clinical_assessment" (.str response)) "assessment_complete" (.bool true)
    ({ patient_data := pd', stage := "assessment" }, 1)

/-- `care_planner`: guarded by `care_plan_complete`; derives `care_level`
from the cleaned content and writes `treatment_recommendations`,
`care_level`, `care_plan_complete` in that `update` order. -/
def carePlanner (client : Client) (s : WState) : WState × Nat :=
  let pd := s.patient_data
  if truthy (dget pd "care_plan_complete") then
    ({ patient_data := pd, stage := "care_planning" }, 0)
  else
    let content := generateResponse client (carePrompt pd) (some careSystemPrompt)
    let pd' := dset (dset (dset pd "treatment_recommendations" (.str content))
        "care_level" (.str (careLevelOf content))) "care_plan_complete" (.bool true)
    ({ patient_data := pd', stage := "care_planning" }, 1)

/-! ### Router, transition table, transition controller -/

/-- `route`: process the current stage, then propose the next stage from the
updated record's completion flag.  Python mutates `state` in place, so the
embedding returns the proposed stage together with the mutated state and the
number of generation calls made. -/
def route (client : Client) (s : WState) : String × WState × Nat :=
  let stage := s.stage
  if stage = "intake" then
    let r := intakeCoordinator client s
    if truthy (dget r.1.patient_data "intake_complete") then ("assessment", r)
    else (stage, r)
  else if stage = "assessment" then
    let r := clinicalAssessment client s
    if truthy (dget r.1.patient_data "assessment_complete") then ("care_planning", r)
    else (stage, r)
  else if stage = "care_planning" then
    (stage, carePlanner client s)
  else
    (stage, s, 0)

/-- The `conditions` dictionary built in `create_agent_workflow`. -/
def workflowConditions : String × String → Option (WState → Bool) := fun p =>
  if p = ("intake", "assessment") then
    some (fun st => truthy (dget st.patient_data "intake_complete"))
  else if p = ("assessment", "care_planning") then
    some (fun st => truthy (dget st.patient_data "assessment_complete"))
  else if p = ("care_planning", "intake") then
    some (fun st => truthy (dget st.patient_data "care_plan_complete"))
  else none

/-- `evaluate_condition`: look the edge up; absent edges evaluate to
`False`. -/
def evaluateCondition (conds : String × String → Option (WState → Bool))
    (s : WState) (fromStage toStage : String) : Bool :=
  match conds (fromStage, toStage) with
  | some c => c s
  | none => false

/-- `transition`: process the current stage, ask `route` for the next stage,
and commit the stage change only when the table's predicate holds; raise
`ValueError` (the `.error` case) otherwise.  The `Nat` component counts all
generation calls made during the step. -/
def transition (client : Client)
    (conds : String × String → Option (WState → Bool)) (s : WState) :
    Except String (WState × Nat) :=
  let fromStage := s.stage
  let p :=
    if fromStage = "intake" then intakeCoordinator client s
    else if fromStage = "assessment" then clinicalAssessment client s
    else if fromStage = "care_planning" then carePlanner client s
    else (s, 0)
  let r := route client p.1
  if r.1 ≠ fromStage then
    if evaluateCondition conds r.2.1 fromStage r.1 then
      .ok ({ r.2.1 with stage := r.1 }, p.2 + r.2.2)
    else
      .error ("Transition from " ++ fromStage ++ " to " ++ r.1 ++
        " is not allowed by the condition.")
  else
    .ok (r.2.1, p.2 + r.2.2)

/-! ### Concrete clients and states used by witnesses and counterexamples -/

/-- A client whose completion is already clean text. -/
def demoClient : Client := fun _ _ => .ok "All good"

/-- A client that raises on every call. -/
def failClient : Client := fun _ _ => .error "boom"

/-- A client whose completion is nothing but a reasoning-trace block. -/
def thinkClient : Client := fun _ _ => .ok "<think>x</think>"

/-- A client whose completion holds two reasoning-trace blocks. -/
def twoBlockClient : Client := fun _ _ => .ok "<think>a</think><think>b</think>"

/-- A fresh intake-stage state holding one demographic field. -/
def stateJane : WState := ⟨[("name", .str "Jane Doe")], "intake"⟩

/-- A fresh intake-stage state with an empty record. -/
def stateEmpty : WState := ⟨[], "intake"⟩

/-- A state whose stage is none of the three workflow stages. -/
def stateDone : WState := ⟨[("name", .str "Jane Doe")], "done"⟩

/-- A record on which every completion flag is already set. -/
def pdAllFlags : PatientData :=
  [("intake_complete", .bool true), ("assessment_complete", .bool true),
   ("care_plan_complete", .bool true)]

/-- A state carrying `pdAllFlags`. -/
def stateFlags : WState := ⟨pdAllFlags, "intake"⟩

/-- A fresh care-planning-stage state. -/
def stateCare : WState := ⟨[], "care_planning"⟩

/-- The state `transition demoClient workflowConditions stateEmpty` commits. -/
def sAfterIntake : WState :=
  ⟨[("risk_assessment", .str "All good"), ("intake_complete", .bool true)], "assessment"⟩

/-! ### Dictionary lemmas -/

theorem dget_dset_self (d : PatientData) (k : String) (v : Val) :
    dget (dset d k v) k = some v := by
  induction d with
  | nil => simp [dget, dset]
  | cons hd tl ih =>
      obtain ⟨k', v'⟩ := hd
      by_cases h : k' = k
      · simp [dget, dset, h]
      · simp [dget, dset, h, ih]

theorem dget_dset_ne (d : PatientData) (k k' : String) (v : Val) (h : k ≠ k') :
    dget (dset d k' v) k = dget d k := by
  induction d with
  | nil => simp [dget, dset, h.symm]
  | cons hd tl ih =>
      obtain ⟨k₀, v₀⟩ := hd
      by_cases h0 : k₀ = k'
      · simp [dget, dset, h0, h.symm]
      · by_cases h1 : k₀ = k <;> simp [dget, dset, h0, h1, h, ih]

/-! ### Processor lemmas -/

theorem intake_skip (c : Client) (s : WState)
    (h : truthy (dget s.patient_data "intake_complete") = true) :
    intakeCoordinator c s = ({ patient_data := s.patient_data, stage := "intake" }, 0) := by
  simp [intakeCoordinator, h]

theorem assessment_skip (c : Client) (s : WState)
    (h : truthy (dget s.patient_data "assessment_complete") = true) :
    clinicalAssessment c s = ({ patient_data := s.patient_data, stage := "assessment" }, 0) := by
  simp [clinicalAssessment, h]

theorem care_skip (c : Client) (s : WState)
    (h : truthy (dget s.patient_data "care_plan_complete") = true) :
    carePlanner c s = ({ patient_data := s.patient_data, stage := "care_planning" }, 0) := by
  simp [carePlanner, h]

theorem intake_run (c : Client) (s : WState)
    (h : ¬ truthy (dget s.patient_data "intake_complete") = true) :
    intakeCoordinator c s =
      ({ patient_data := dset (dset s.patient_data "risk_assessment"
            (.str (generateResponse c (intakePrompt s.patient_data) (some intakeSystemPrompt))))
          "intake_complete" (.bool true), stage := "intake" }, 1) := by
  simp [intakeCoordinator, h]

theorem assessment_run (c : Client) (s : WState)
    (h : ¬ truthy (dget s.patient_data "assessment_complete") = true) :
    clinicalAssessment c s =
      ({ patient_data := dset (dset s.patient_data "clinical_assessment"
            (.str (generateResponse c (assessmentPrompt s.patient_data) (some assessmentSystemPrompt))))
          "assessment_complete" (.bool true), stage := "assessment" }, 1) := by
  simp [clinicalAssessment, h]

theorem care_run (c : Client) (s : WState)
    (h : ¬ truthy (dget s.patient_data "care_plan_complete") = true) :
    carePlanner c s =
      ({ patient_data := dset (dset (dset s.patient_data "treatment_recommendations" (.str (generateResponse c (carePrompt s.patient_data) (some careSystemPrompt)))) "care_level" (.str (careLevelOf (generateResponse c (carePrompt s.patient_data) (some careSystemPrompt))))) "care_plan_complete" (.bool true),
         stage := "care_planning" }, 1) := by
  simp [carePlanner, h]

theorem intake_stage (c : Client) (s : WState) :
    ((intakeCoordinator c s).1).stage = "intake" := by
  by_cases h : truthy (dget s.patient_data "intake_complete") = true
  · rw [intake_skip c s h]
  · rw [intake_run c s h]

theorem assessment_stage (c : Client) (s : WState) :
    ((clinicalAssessment c s).1).stage = "assessment" := by
  by_cases h : truthy (dget s.patient_data "assessment_complete") = true
  · rw [assessment_skip c s h]
  · rw [assessment_run c s h]

theorem care_stage (c : Client) (s : WState) :
    ((carePlanner c s).1).stage = "care_planning" := by
  by_cases h : truthy (dget s.patient_data "care_plan_complete") = true
  · rw [care_skip c s h]
  · rw [care_run c s h]

theorem intake_flag (c : Client) (s : WState) :
    truthy (dget ((intakeCoordinator c s).1).patient_data "intake_complete") = true := by
  by_cases h : truthy (dget s.patient_data "intake_complete") = true
  · rw [intake_skip c s h]; exact h
  · rw [intake_run c s h]; simp [dget_dset_self, truthy]

theorem assessment_flag (c : Client) (s : WState) :
    truthy (dget ((clinicalAssessment c s).1).patient_data "assessment_complete") = true := by
  by_cases h : truthy (dget s.patient_data "assessment_complete") = true
  · rw [assessment_skip c s h]; exact h
  · rw [assessment_run c s h]; simp [dget_dset_self, truthy]

theorem care_flag (c : Client) (s : WState) :
    truthy (dget ((carePlanner c s).1).patient_data "care_plan_complete") = true := by
  by_cases h : truthy (dget s.patient_data "care_plan_complete") = true
  · rw [care_skip c s h]; exact h
  · rw [care_run c s h]; simp [dget_dset_self, truthy]

/-! ### Router lemmas -/

theorem route_intake (c : Client) (s : WState) (h : s.stage = "intake") :
    route c s = ("assessment", intakeCoordinator c s) := by
  simp [route, h, intake_flag]

theorem route_assessment (c : Client) (s : WState) (h : s.stage = "assessment") :
    route c s = ("care_planning", clinicalAssessment c s) := by
  simp [route, h, assessment_flag]

theorem route_care (c : Client) (s : WState) (h : s.stage = "care_planning") :
    route c s = ("care_planning", carePlanner c s) := by
  simp [route, h]

theorem route_other (c : Client) (s : WState) (h1 : s.stage ≠ "intake")
    (h2 : s.stage ≠ "assessment") (h3 : s.stage ≠ "care_planning") :
    route c s = (s.stage, s, 0) := by
  simp [route, h1, h2, h3]

/-! ### Transition-controller lemmas -/

theorem transition_intake (c : Client) (s : WState) (h : s.stage = "intake") :
    transition c workflowConditions s =
      .ok ({ patient_data := ((intakeCoordinator c s).1).patient_data,
             stage := "assessment" }, (intakeCoordinator c s).2) := by
  have hr : route c ((intakeCoordinator c s).1) =
      ("assessment", intakeCoordinator c ((intakeCoordinator c s).1)) :=
    route_intake c _ (intake_stage c s)
  have hskip : intakeCoordinator c ((intakeCoordinator c s).1) =
      ({ patient_data := ((intakeCoordinator c s).1).patient_data, stage := "intake" }, 0) :=
    intake_skip c _ (intake_flag c s)
  have hcond : evaluateCondition workflowConditions
      { patient_data := ((intakeCoordinator c s).1).patient_data, stage := "intake" }
      "intake" "assessment" = true := by
    simp [evaluateCondition, workflowConditions, intake_flag]
  simp [transition, h, hr, hskip, hcond]

theorem transition_assessment (c : Client) (s : WState) (h : s.stage = "assessment") :
    transition c workflowConditions s =
      .ok ({ patient_data := ((clinicalAssessment c s).1).patient_data,
             stage := "care_planning" }, (clinicalAssessment c s).2) := by
  have hr : route c ((clinicalAssessment c s).1) =
      ("care_planning", clinicalAssessment c ((clinicalAssessment c s).1)) :=
    route_assessment c _ (assessment_stage c s)
  have hskip : clinicalAssessment c ((clinicalAssessment c s).1) =
      ({ patient_data := ((clinicalAssessment c s).1).patient_data, stage := "assessment" }, 0) :=
    assessment_skip c _ (assessment_flag c s)
  have hcond : evaluateCondition workflowConditions
      { patient_data := ((clinicalAssessment c s).1).patient_data, stage := "assessment" }
      "assessment" "care_planning" = true := by
    simp [evaluateCondition, workflowConditions, assessment_flag]
  simp [transition, h, hr, hskip, hcond]

theorem transition_care (c : Client) (s : WState) (h : s.stage = "care_planning") :
    transition c workflowConditions s =
      .ok ({ patient_data := ((carePlanner c s).1).patient_data,
             stage := "care_planning" }, (carePlanner c s).2) := by
  have hr : route c ((carePlanner c s).1) =
      ("care_planning", carePlanner c ((carePlanner c s).1)) :=
    route_care c _ (care_stage c s)
  have hskip : carePlanner c ((carePlanner c s).1) =
      ({ patient_data := ((carePlanner c s).1).patient_data, stage := "care_planning" }, 0) :=
    care_skip c _ (care_flag c s)
  simp [transition, h, hr, hskip]

theorem transition_other (c : Client) (s : WState) (h1 : s.stage ≠ "intake")
    (h2 : s.stage ≠ "assessment") (h3 : s.stage ≠ "care_planning") :
    transition c workflowConditions s = .ok (s, 0) := by
  simp [transition, route_other c s h1 h2 h3, h1, h2, h3]

/-! ### Claims -/

/-- C1 (counterexample): on an initial intake state whose intake flag is
unset, a failing generation client does NOT make `transition` raise: the
step succeeds, stores the diagnostic text `"Error: boom"` as
`risk_assessment`, sets `intake_complete` to true, and advances `stage` to
`"assessment"`. -/
theorem c1_cex :
    transition failClient workflowConditions stateJane =
      .ok (⟨[("name", .str "Jane Doe"), ("risk_assessment", .str "Error: boom"),
             ("intake_complete", .bool true)], "assessment"⟩, 1) := by
  rfl

/-- C1 (amended): for every intake-stage state whose intake flag is unset
and every always-failing generation client, `step` returns successfully
(no `GenerationError` is surfaced): the string `"Error: " + e` is stored as
`risk_assessment`, `intake_complete` is set to true, and `stage` advances
to `"assessment"`, after exactly one generation call. -/
theorem c1_failure_marks_complete (e : String) (s : WState) (h1 : s.stage = "intake")
    (h2 : truthy (dget s.patient_data "intake_complete") = false) :
    transition (fun _ _ => .error e) workflowConditions s =
      .ok ({ patient_data := dset (dset s.patient_data "risk_assessment"
              (.str ("Error: " ++ e))) "intake_complete" (.bool true),
             stage := "assessment" }, 1) := by
  rw [transition_intake _ s h1, intake_run _ s (by simp [h2])]
  simp [generateResponse]

/-- C1 (witness for the amended claim) at a concrete intake state. -/
theorem c1_witness :
    transition (fun _ _ => .error "quota") workflowConditions stateEmpty =
      .ok ({ patient_data := dset (dset stateEmpty.patient_data "risk_assessment"
              (.str ("Error: " ++ "quota"))) "intake_complete" (.bool true),
             stage := "assessment" }, 1) :=
  c1_failure_marks_complete "quota" stateEmpty rfl (by rfl)

/-- C2: whenever `transition` returns a state, either the stage is
unchanged, or the pair (from-stage, new stage) is bound in the
transition-conditions table and the bound predicate holds on the updated
record; a change is never committed with a false or missing predicate. -/
theorem c2_transition_legal (c : Client) (s s' : WState) (n : Nat)
    (h : transition c workflowConditions s = .ok (s', n)) :
    s'.stage = s.stage ∨
      ∃ p, workflowConditions (s.stage, s'.stage) = some p ∧ p s' = true := by
  by_cases h1 : s.stage = "intake"
  · rw [transition_intake c s h1] at h
    simp only [Except.ok.injEq, Prod.mk.injEq] at h
    obtain ⟨hs, -⟩ := h
    subst hs
    right
    refine ⟨fun st => truthy (dget st.patient_data "intake_complete"), ?_, ?_⟩
    · simp [h1, workflowConditions]
    · simp [intake_flag]
  · by_cases h2 : s.stage = "assessment"
    · rw [transition_assessment c s h2] at h
      simp only [Except.ok.injEq, Prod.mk.injEq] at h
      obtain ⟨hs, -⟩ := h
      subst hs
      right
      refine ⟨fun st => truthy (dget st.patient_data "assessment_complete"), ?_, ?_⟩
      · simp [h2, workflowConditions]
      · simp [assessment_flag]
    · by_cases h3 : s.stage = "care_planning"
      · rw [transition_care c s h3] at h
        simp only [Except.ok.injEq, Prod.mk.injEq] at h
        obtain ⟨hs, -⟩ := h
        subst hs
        left
        exact h3.symm
      · rw [transition_other c s h1 h2 h3] at h
        simp only [Except.ok.injEq, Prod.mk.injEq] at h
        obtain ⟨hs, -⟩ := h
        subst hs
        left
        rfl

/-- C2 (witness): the theorem applied to a concrete successful step out of
the intake stage. -/
theorem c2_witness :
    sAfterIntake.stage = stateEmpty.stage ∨
      ∃ p, workflowConditions (stateEmpty.stage, sAfterIntake.stage) = some p ∧
        p sAfterIntake = true :=
  c2_transition_legal demoClient stateEmpty sAfterIntake 1 (by rfl)

/-- C3: a stage processor whose own completion flag is already true is a
no-op on the record, a second invocation returns a state identical to the
first invocation's and performs zero generation calls. -/
theorem c3_processors_idempotent (c : Client) (s : WState) :
    (truthy (dget s.patient_data "intake_complete") = true →
      ((intakeCoordinator c s).1).patient_data = s.patient_data ∧
      intakeCoordinator c ((intakeCoordinator c s).1) = ((intakeCoordinator c s).1, 0)) ∧
    (truthy (dget s.patient_data "assessment_complete") = true →
      ((clinicalAssessment c s).1).patient_data = s.patient_data ∧
      clinicalAssessment c ((clinicalAssessment c s).1) = ((clinicalAssessment c s).1, 0)) ∧
    (truthy (dget s.patient_data "care_plan_complete") = true →
      ((carePlanner c s).1).patient_data = s.patient_data ∧
      carePlanner c ((carePlanner c s).1) = ((carePlanner c s).1, 0)) := by
  refine ⟨fun h => ?_, fun h => ?_, fun h => ?_⟩
  · rw [intake_skip c s h]
    exact ⟨rfl, intake_skip c _ h⟩
  · rw [assessment_skip c s h]
    exact ⟨rfl, assessment_skip c _ h⟩
  · rw [care_skip c s h]
    exact ⟨rfl, care_skip c _ h⟩

/-- C3 (witness): the theorem applied to a record with all flags set. -/
theorem c3_witness :
    ((intakeCoordinator demoClient stateFlags).1).patient_data = stateFlags.patient_data ∧
    clinicalAssessment demoClient ((clinicalAssessment demoClient stateFlags).1) =
      ((clinicalAssessment demoClient stateFlags).1, 0) ∧
    carePlanner demoClient ((carePlanner demoClient stateFlags).1) =
      ((carePlanner demoClient stateFlags).1, 0) :=
  ⟨((c3_processors_idempotent demoClient stateFlags).1 (by rfl)).1,
   ((c3_processors_idempotent demoClient stateFlags).2.1 (by rfl)).2,
   ((c3_processors_idempotent demoClient stateFlags).2.2 (by rfl)).2⟩

/-- C4 (counterexample): a successful generation call whose reply is nothing
but a reasoning-trace block cleans to the empty string, so the intake
processor stores `intake_complete = true` together with an EMPTY
`risk_assessment` — refuting the non-emptiness half of the claim. -/
theorem c4_cex :
    dget ((intakeCoordinator thinkClient stateEmpty).1).patient_data "intake_complete" =
      some (.bool true) ∧
    dget ((intakeCoordinator thinkClient stateEmpty).1).patient_data "risk_assessment" =
      some (.str "") := by
  exact ⟨rfl, rfl⟩

/-- C4 (amended): for every stage, a processor run that starts with its
completion flag unset writes the flag and its paired result field together:
afterwards the flag is `true` and the result field is present and holds a
string (possibly empty — non-emptiness does not hold, see the
counterexample). -/
theorem c4_flag_and_result_written_together (c : Client) (s : WState) :
    (truthy (dget s.patient_data "intake_complete") = false →
      dget ((intakeCoordinator c s).1).patient_data "intake_complete" = some (.bool true) ∧
      ∃ t, dget ((intakeCoordinator c s).1).patient_data "risk_assessment" = some (.str t)) ∧
    (truthy (dget s.patient_data "assessment_complete") = false →
      dget ((clinicalAssessment c s).1).patient_data "assessment_complete" = some (.bool true) ∧
      ∃ t, dget ((clinicalAssessment c s).1).patient_data "clinical_assessment" = some (.str t)) ∧
    (truthy (dget s.patient_data "care_plan_complete") = false →
      dget ((carePlanner c s).1).patient_data "care_plan_complete" = some (.bool true) ∧
      ∃ t, dget ((carePlanner c s).1).patient_data "treatment_recommendations" = some (.str t)) := by
  refine ⟨fun h => ?_, fun h => ?_, fun h => ?_⟩
  · rw [intake_run c s (by simp [h])]
    exact ⟨dget_dset_self _ _ _,
      ⟨generateResponse c (intakePrompt s.patient_data) (some intakeSystemPrompt),
        by rw [dget_dset_ne _ _ _ _ (by decide), dget_dset_self]⟩⟩
  · rw [assessment_run c s (by simp [h])]
    exact ⟨dget_dset_self _ _ _,
      ⟨generateResponse c (assessmentPrompt s.patient_data) (some assessmentSystemPrompt),
        by rw [dget_dset_ne _ _ _ _ (by decide), dget_dset_self]⟩⟩
  · rw [care_run c s (by simp [h])]
    exact ⟨dget_dset_self _ _ _,
      ⟨generateResponse c (carePrompt s.patient_data) (some careSystemPrompt),
        by rw [dget_dset_ne _ _ _ _ (by decide), dget_dset_ne _ _ _ _ (by decide),
          dget_dset_self]⟩⟩

/-- C4 (witness for the amended claim) on a fresh record. -/
theorem c4_witness :
    dget ((intakeCoordinator demoClient stateJane).1).patient_data "intake_complete" =
      some (.bool true) ∧
    ∃ t, dget ((intakeCoordinator demoClient stateJane).1).patient_data "risk_assessment" =
      some (.str t) :=
  (c4_flag_and_result_written_together demoClient stateJane).1 (by rfl)

/-- C5: the care-level keyword scan of `care_planner` on the cleaned output
text: `"emergency"` (case-insensitive) anywhere gives `"Emergency"`;
`"urgent"` without `"emergency"` gives `"Urgent"`; neither gives
`"Routine"`. -/
theorem c5_care_level_derivation (content : String) :
    (hasSub (lowerStr content).data "emergency".data = true →
      careLevelOf content = "Emergency") ∧
    (hasSub (lowerStr content).data "emergency".data = false →
      hasSub (lowerStr content).data "urgent".data = true →
      careLevelOf content = "Urgent") ∧
    (hasSub (lowerStr content).data "emergency".data = false →
      hasSub (lowerStr content).data "urgent".data = false →
      careLevelOf content = "Routine") := by
  refine ⟨fun h1 => ?_, fun h1 h2 => ?_, fun h1 h2 => ?_⟩
  · simp [careLevelOf, h1]
  · simp [careLevelOf, h1, h2]
  · simp [careLevelOf, h1, h2]

/-- C5 (witness): the three branches of the theorem at concrete texts. -/
theorem c5_witness :
    careLevelOf "Take to the EMERGENCY room" = "Emergency" ∧
    careLevelOf "Urgent referral needed" = "Urgent" ∧
    careLevelOf "Follow up in two weeks" = "Routine" :=
  ⟨(c5_care_level_derivation _).1 (by rfl),
   (c5_care_level_derivation _).2.1 (by rfl) (by rfl),
   (c5_care_level_derivation _).2.2 (by rfl) (by rfl)⟩

/-- C6: for every client and every state whose stage is one of the three
workflow stages, `transition` returns `.ok` — the `ValueError` branch
(`IllegalTransition`) is unreachable, because each processor leaves its
completion flag truthy, so the router's proposal always satisfies the
table's predicate. -/
theorem c6_no_illegal_transition (c : Client) (s : WState)
    (h : s.stage = "intake" ∨ s.stage = "assessment" ∨ s.stage = "care_planning") :
    ∃ r, transition c workflowConditions s = Except.ok r := by
  rcases h with h | h | h
  · exact ⟨_, transition_intake c s h⟩
  · exact ⟨_, transition_assessment c s h⟩
  · exact ⟨_, transition_care c s h⟩

/-- C6 (witness) at a concrete intake-stage state. -/
theorem c6_witness :
    ∃ r, transition demoClient workflowConditions stateJane = Except.ok r :=
  c6_no_illegal_transition demoClient stateJane (Or.inl rfl)

/-- C7: the router's return value: from `"intake"` it proposes
`"assessment"` exactly when the processed record's `intake_complete` is
truthy and otherwise keeps `"intake"`; from `"assessment"` it proposes
`"care_planning"` exactly when `assessment_complete` is truthy and
otherwise keeps `"assessment"`; from `"care_planning"` it always keeps
`"care_planning"` (no forward successor). -/
theorem c7_router (c : Client) (s : WState) :
    (s.stage = "intake" → (route c s).1 =
      (if truthy (dget ((intakeCoordinator c s).1).patient_data "intake_complete")
        then "assessment" else s.stage)) ∧
    (s.stage = "assessment" → (route c s).1 =
      (if truthy (dget ((clinicalAssessment c s).1).patient_data "assessment_complete")
        then "care_planning" else s.stage)) ∧
    (s.stage = "care_planning" → (route c s).1 = "care_planning") := by
  refine ⟨fun h => ?_, fun h => ?_, fun h => ?_⟩
  · by_cases hf : truthy (dget ((intakeCoordinator c s).1).patient_data "intake_complete") =
        true <;> simp [route, h, hf]
  · by_cases hf : truthy (dget ((clinicalAssessment c s).1).patient_data "assessment_complete") =
        true <;> simp [route, h, hf]
  · simp [route, h]

/-- C7 (witness): the router at concrete intake and care-planning states. -/
theorem c7_witness :
    (route demoClient stateEmpty).1 = "assessment" ∧
    (route demoClient stateCare).1 = "care_planning" := by
  constructor
  · rw [(c7_router demoClient stateEmpty).1 rfl]
    rfl
  · exact (c7_router demoClient stateCare).2.2 rfl

/-- C9: the assessment and care-planning processors write only their own
result fields and completion flag: every other key of the record — in
particular the identity fields written at intake — is unchanged. -/
theorem c9_frame (c : Client) (s : WState) (k : String) :
    (k ≠ "clinical_assessment" → k ≠ "assessment_complete" →
      dget ((clinicalAssessment c s).1).patient_data k = dget s.patient_data k) ∧
    (k ≠ "treatment_recommendations" → k ≠ "care_level" → k ≠ "care_plan_complete" →
      dget ((carePlanner c s).1).patient_data k = dget s.patient_data k) := by
  constructor
  · intro h1 h2
    by_cases hf : truthy (dget s.patient_data "assessment_complete") = true
    · rw [assessment_skip c s hf]
    · rw [assessment_run c s hf, dget_dset_ne _ _ _ _ h2, dget_dset_ne _ _ _ _ h1]
  · intro h1 h2 h3
    by_cases hf : truthy (dget s.patient_data "care_plan_complete") = true
    · rw [care_skip c s hf]
    · rw [care_run c s hf, dget_dset_ne _ _ _ _ h3, dget_dset_ne _ _ _ _ h2,
        dget_dset_ne _ _ _ _ h1]

/-- C9 (witness): the `"name"` field written at intake survives both later
processors on a concrete record. -/
theorem c9_witness :
    dget ((clinicalAssessment demoClient stateJane).1).patient_data "name" =
      dget stateJane.patient_data "name" ∧
    dget ((carePlanner demoClient stateJane).1).patient_data "name" =
      dget stateJane.patient_data "name" :=
  ⟨(c9_frame demoClient stateJane "name").1 (by decide) (by decide),
   (c9_frame demoClient stateJane "name").2 (by decide) (by decide) (by decide)⟩

/-- C10: on a state whose stage is none of the three workflow stages,
`transition` returns the state unchanged with zero generation calls and no
error. -/
theorem c10_unknown_stage_noop (c : Client) (s : WState) (h1 : s.stage ≠ "intake")
    (h2 : s.stage ≠ "assessment") (h3 : s.stage ≠ "care_planning") :
    transition c workflowConditions s = .ok (s, 0) :=
  transition_other c s h1 h2 h3

/-- C10 (witness) at a concrete state with stage `"done"`. -/
theorem c10_witness :
    transition demoClient workflowConditions stateDone = .ok (stateDone, 0) :=
  c10_unknown_stage_noop demoClient stateDone (by decide) (by decide) (by decide)

/-! ### Substring-search lemmas for the response cleaner -/

theorem isPre_append (p r : List Char) : isPre p (p ++ r) = true := by
  induction p with
  | nil => rfl
  | cons a as ih => simp [isPre, ih]

theorem findSub_eq_first (hay pat : List Char) (n : Nat)
    (h1 : isPre pat (hay.drop n) = true)
    (h2 : ∀ i, i < n → isPre pat (hay.drop i) = false) :
    findSub hay pat = some n := by
  induction hay generalizing n with
  | nil =>
      cases n with
      | zero => simpa [findSub] using h1
      | succ m =>
          exfalso
          have h0 := h2 0 (Nat.succ_pos m)
          rw [List.drop_nil] at h1
          rw [List.drop_nil] at h0
          rw [h1] at h0
          exact Bool.noConfusion h0
  | cons a t ih =>
      cases n with
      | zero => simpa [findSub] using h1
      | succ m =>
          have h0 := h2 0 (Nat.succ_pos m)
          rw [List.drop_zero] at h0
          have h1' : isPre pat (t.drop m) = true := by
            rwa [List.drop_succ_cons] at h1
          have h2' : ∀ i, i < m → isPre pat (t.drop i) = false := by
            intro i hi
            have := h2 (i + 1) (Nat.succ_lt_succ hi)
            rwa [List.drop_succ_cons] at this
          simp [findSub, h0, ih _ h1' h2']

theorem removeThink_decomp (A B C : List Char)
    (hO : ∀ i, i < A.length →
      isPre oTag ((A ++ oTag ++ B ++ cTag ++ C).drop i) = false)
    (hC : ∀ i, i < A.length + oTag.length + B.length →
      isPre cTag ((A ++ oTag ++ B ++ cTag ++ C).drop i) = false) :
    removeThink (A ++ oTag ++ B ++ cTag ++ C) = A ++ C := by
  have e1 : A ++ oTag ++ B ++ cTag ++ C = A ++ (oTag ++ (B ++ (cTag ++ C))) := by
    simp [List.append_assoc]
  have e2 : A ++ oTag ++ B ++ cTag ++ C = ((A ++ oTag) ++ B) ++ (cTag ++ C) := by
    simp [List.append_assoc]
  have hfo : findSub (A ++ oTag ++ B ++ cTag ++ C) oTag = some A.length := by
    apply findSub_eq_first _ _ _ _ hO
    rw [e1, List.drop_left]
    exact isPre_append _ _
  have hfc : findSub (A ++ oTag ++ B ++ cTag ++ C) cTag =
      some (A.length + oTag.length + B.length) := by
    apply findSub_eq_first _ _ _ _ hC
    rw [e2, List.drop_left' (by simp only [List.length_append, Nat.add_assoc])]
    exact isPre_append _ _
  have ht : (A ++ oTag ++ B ++ cTag ++ C).take A.length = A := by
    rw [e1]; exact List.take_left _ _
  have hd : (A ++ oTag ++ B ++ cTag ++ C).drop
      (A.length + oTag.length + B.length + cTag.length) = C :=
    List.drop_left' (by simp only [List.length_append, Nat.add_assoc])
  simp only [removeThink, hfo, hfc]
  rw [ht, hd]

/-- C8 (counterexample): `_clean_response` removes only the FIRST paired
think block, so a reply holding two blocks stores a text that still
contains a `"<think>"` tag (and the second block's content) — refuting
"all paired blocks removed / no tags remain". -/
theorem c8_cex :
    dget ((intakeCoordinator twoBlockClient stateEmpty).1).patient_data "risk_assessment" =
      some (.str "<think>b</think>") ∧
    hasSub "<think>b</think>".data oTag = true := by
  exact ⟨rfl, rfl⟩

/-- C8 (amended): for a reply `A ++ "<think>" ++ B ++ "</think>" ++ C` in
which the shown tags are the FIRST occurrences of `"<think>"` and
`"</think>"`, the stored result text is `A ++ C` with the
trailing-metadata pass applied: the first block's content `B` and its tags
are removed (later think blocks, if any inside `C`, survive — see the
counterexample). -/
theorem c8_first_think_block_removed (A B C : List Char) (s : WState)
    (hflag : truthy (dget s.patient_data "intake_complete") = false)
    (hO : ∀ i, i < A.length →
      isPre oTag ((A ++ oTag ++ B ++ cTag ++ C).drop i) = false)
    (hC : ∀ i, i < A.length + oTag.length + B.length →
      isPre cTag ((A ++ oTag ++ B ++ cTag ++ C).drop i) = false) :
    dget ((intakeCoordinator (fun _ _ => .ok ⟨A ++ oTag ++ B ++ cTag ++ C⟩) s).1).patient_data
      "risk_assessment" = some (.str ⟨stripMeta (A ++ C)⟩) := by
  rw [intake_run _ s (by simp [hflag]), dget_dset_ne _ _ _ _ (by decide), dget_dset_self]
  have hgen : generateResponse (fun _ _ => .ok ⟨A ++ oTag ++ B ++ cTag ++ C⟩)
      (intakePrompt s.patient_data) (some intakeSystemPrompt) =
      ⟨stripMeta (A ++ C)⟩ := by
    show cleanResponse ⟨A ++ oTag ++ B ++ cTag ++ C⟩ = ⟨stripMeta (A ++ C)⟩
    show (⟨stripMeta (removeThink (A ++ oTag ++ B ++ cTag ++ C))⟩ : String) =
      ⟨stripMeta (A ++ C)⟩
    rw [removeThink_decomp A B C hO hC]
  rw [hgen]

/-- C8 (witness for the amended claim): a single think block between
`"Hello "` and `"World"` is removed from the stored text. -/
theorem c8_witness :
    dget ((intakeCoordinator
        (fun _ _ => .ok ⟨"Hello ".data ++ oTag ++ "secret".data ++ cTag ++ "World".data⟩)
        stateEmpty).1).patient_data "risk_assessment" =
      some (.str ⟨stripMeta ("Hello ".data ++ "World".data)⟩) :=
  c8_first_think_block_removed "Hello ".data "secret".data "World".data stateEmpty
    (by rfl) (by decide) (by decide)

end Workflow
